import Mathlib

/-!
Verification development for the f-chat-rs client library core.

The definitions below are a shallow embedding of the Rust sources:
`src/protocol.rs` (wire codec), `src/session.rs` (session state machine),
`src/client.rs` (dispatcher and session list), `src/util.rs` (StackString)
and `src/data.rs` (domain newtypes).  Rust machine integers are modelled as
`Nat`/`Int` with explicit range checks where the code checks them, `f32`
values are modelled as `Rat` (no claim depends on float rounding), panics
(`expect`, `unwrap`) are modelled as `Option.none`, and the async stream of
websocket frames is modelled as a `List` of frames.
-/

namespace FChat

/-- Model of `serde_json::Value`.  Numbers are modelled as `Rat`: the wire
only carries decimal numerals, and no claim depends on IEEE rounding. -/
inductive Json where
  | null
  | bool (b : Bool)
  | num (q : Rat)
  | str (s : String)
  | arr (elems : List Json)
  | obj (fields : List (String × Json))

def hexDigit (n : Nat) : Char :=
  if n < 10 then Char.ofNat (48 + n) else Char.ofNat (87 + (n % 16))

/-- String escaping as performed by `serde_json` when writing a JSON string. -/
def escapeChar (c : Char) : List Char :=
  if c = '"' then ['\\', '"']
  else if c = '\\' then ['\\', '\\']
  else if c = Char.ofNat 8 then ['\\', 'b']
  else if c = Char.ofNat 9 then ['\\', 't']
  else if c = Char.ofNat 10 then ['\\', 'n']
  else if c = Char.ofNat 12 then ['\\', 'f']
  else if c = Char.ofNat 13 then ['\\', 'r']
  else if c.toNat < 32 then
    ['\\', 'u', '0', '0', hexDigit (c.toNat / 16), hexDigit (c.toNat % 16)]
  else [c]

def escapeString (s : String) : String :=
  "\"" ++ String.mk (s.data.flatMap escapeChar) ++ "\""

/-- Decimal rendering of a JSON number.  Every number written by
`prepare_command` is an integer (u32 or a stringified kink id), so only the
`den = 1` branch is ever exercised. -/
def renderNum (q : Rat) : String :=
  if q.den = 1 then toString q.num else toString q.num ++ "/" ++ toString q.den

mutual

/-- Textual rendering of a JSON value, as `serde_json::to_writer` produces it
(compact form, no spaces). -/
def Json.render : Json → String
  | .null => "null"
  | .bool true => "true"
  | .bool false => "false"
  | .num q => renderNum q
  | .str s => escapeString s
  | .arr es => "[" ++ renderElems es ++ "]"
  | .obj fs => String.mk ['{'] ++ renderFields fs ++ String.mk ['}']

def renderElems : List Json → String
  | [] => ""
  | [x] => x.render
  | x :: y :: xs => x.render ++ "," ++ renderElems (y :: xs)

def renderFields : List (String × Json) → String
  | [] => ""
  | [(k, v)] => escapeString k ++ ":" ++ v.render
  | (k, v) :: f :: fs => escapeString k ++ ":" ++ v.render ++ "," ++ renderFields (f :: fs)

end

/-- Ordered insertion into a key-sorted association list, replacing an equal
key: the behaviour of the `BTreeMap<String, Value>` that backs
`serde_json::Map` (the crate is used without the `preserve_order` feature;
the repository's own `client_command_serialize` test shows the keys of an
encoded body in sorted order). -/
def insertField (k : String) (v : Json) : List (String × Json) → List (String × Json)
  | [] => [(k, v)]
  | (k2, v2) :: fs =>
    if k < k2 then (k, v) :: (k2, v2) :: fs
    else if k = k2 then (k, v) :: fs
    else (k2, v2) :: insertField k v fs

/-- A JSON object as `serde_json::to_value` normalises it: fields held in a
key-sorted map. -/
def Json.mkObj (fields : List (String × Json)) : Json :=
  .obj (fields.foldl (fun acc kv => insertField kv.1 kv.2 acc) [])

def Json.isObjB : Json → Bool
  | .obj _ => true
  | _ => false

def Json.isNullB : Json → Bool
  | .null => true
  | _ => false

/-! ### Domain model (`src/data.rs`)

`Character` and `Channel` are string newtypes ("Strong typing for string
IDs", data.rs line 488-489); they are modelled by their wrapped `String`.
The enums carry their serde wire names through `wire` functions (the
`#[serde(rename...)]` attributes). -/

abbrev Character := String
abbrev Channel := String

inductive Gender where
  | Male | Female | Transgender | Herm | Shemale | MaleHerm | CBoy | None
  deriving DecidableEq, Repr

def Gender.wire : Gender → String
  | .Male => "Male"
  | .Female => "Female"
  | .Transgender => "Transgender"
  | .Herm => "Herm"
  | .Shemale => "Shemale"
  | .MaleHerm => "Male-Herm"
  | .CBoy => "Cunt-Boy"
  | .None => "None"

def Gender.all : List Gender :=
  [.Male, .Female, .Transgender, .Herm, .Shemale, .MaleHerm, .CBoy, .None]

inductive Orientation where
  | Straight | Gay | Bisexual | Asexual | Unsure | BiMalePref | BiFemalePref
  | Pansexual | Bicurious
  deriving DecidableEq, Repr

def Orientation.wire : Orientation → String
  | .Straight => "Straight"
  | .Gay => "Gay"
  | .Bisexual => "Bisexual"
  | .Asexual => "Asexual"
  | .Unsure => "Unsure"
  | .BiMalePref => "Bi - male preference"
  | .BiFemalePref => "Bi - female preference"
  | .Pansexual => "Pansexual"
  | .Bicurious => "Bi-curious"

inductive Language where
  | Dutch | English | French | Spanish | German | Russian | Chinese | Japanese
  | Portuguese | Korean | Arabic | Italian | Swedish | Other
  deriving DecidableEq, Repr

def Language.wire : Language → String
  | .Dutch => "Dutch"
  | .English => "English"
  | .French => "French"
  | .Spanish => "Spanish"
  | .German => "German"
  | .Russian => "Russian"
  | .Chinese => "Chinese"
  | .Japanese => "Japanese"
  | .Portuguese => "Portuguese"
  | .Korean => "Korean"
  | .Arabic => "Arabic"
  | .Italian => "Italian"
  | .Swedish => "Swedish"
  | .Other => "Other"

inductive FurryPreference where
  | HumanOnly | HumanPref | Both | FurryPref | FurryOnly
  deriving DecidableEq, Repr

def FurryPreference.wire : FurryPreference → String
  | .HumanOnly => "No furry characters, just humans"
  | .HumanPref => "Furries ok, Humans Preferred"
  | .Both => "Furs and / or humans"
  | .FurryPref => "Humans ok, Furries Preferred"
  | .FurryOnly => "No humans, just furry characters"

inductive Role where
  | AlwaysDom | UsuallyDom | Switch | UsuallySub | AlwaysSub | None
  deriving DecidableEq, Repr

def Role.wire : Role → String
  | .AlwaysDom => "Always dominant"
  | .UsuallyDom => "Usually dominant"
  | .Switch => "Switch"
  | .UsuallySub => "Usually submissive"
  | .AlwaysSub => "Always submissive"
  | .None => "None"

inductive IdentifyMethod where
  | Ticket
  deriving DecidableEq, Repr

def IdentifyMethod.wire : IdentifyMethod → String
  | .Ticket => "ticket"

inductive IgnoreAction where
  | Add | Delete | Notify | List | Init
  deriving DecidableEq, Repr

def IgnoreAction.wire : IgnoreAction → String
  | .Add => "add"
  | .Delete => "delete"
  | .Notify => "notify"
  | .List => "list"
  | .Init => "init"

def ignoreActionAll : List IgnoreAction := [.Add, .Delete, .Notify, .List, .Init]

inductive ChannelMode where
  | ChatOnly | AdsOnly | Both
  deriving DecidableEq, Repr

def ChannelMode.wire : ChannelMode → String
  | .ChatOnly => "chat"
  | .AdsOnly => "ads"
  | .Both => "both"

def ChannelMode.all : List ChannelMode := [.ChatOnly, .AdsOnly, .Both]

inductive ChannelStatus where
  | Public | Private
  deriving DecidableEq, Repr

def ChannelStatus.wire : ChannelStatus → String
  | .Public => "public"
  | .Private => "private"

inductive ReportAction where
  | Report
  deriving DecidableEq, Repr

def ReportAction.wire : ReportAction → String
  | .Report => "report"

inductive Status where
  | Online | Looking | Busy | Dnd | Idle | Away | Crown
  deriving DecidableEq, Repr

def Status.wire : Status → String
  | .Online => "online"
  | .Looking => "looking"
  | .Busy => "busy"
  | .Dnd => "dnd"
  | .Idle => "idle"
  | .Away => "away"
  | .Crown => "crown"

def Status.all : List Status := [.Online, .Looking, .Busy, .Dnd, .Idle, .Away, .Crown]

inductive TypingStatus where
  | Clear | Paused | Typing
  deriving DecidableEq, Repr

def TypingStatus.wire : TypingStatus → String
  | .Clear => "clear"
  | .Paused => "paused"
  | .Typing => "typing"

def TypingStatus.all : List TypingStatus := [.Clear, .Paused, .Typing]

inductive KinkResponsePart where
  | Start | Custom | End
  deriving DecidableEq, Repr

def KinkResponsePart.wire : KinkResponsePart → String
  | .Start => "start"
  | .Custom => "custom"
  | .End => "end"

def KinkResponsePart.all : List KinkResponsePart := [.Start, .Custom, .End]

inductive ProfileDataPart where
  | Start | End | Info | Select
  deriving DecidableEq, Repr

def ProfileDataPart.wire : ProfileDataPart → String
  | .Start => "start"
  | .End => "end"
  | .Info => "info"
  | .Select => "select"

def ProfileDataPart.all : List ProfileDataPart := [.Start, .End, .Info, .Select]

/-- Rust `KinkId(pub u32)`: serialised through `KinkIdExpanded::String`, i.e. as a
decimal string. -/
structure KinkId where
  id : Nat
  deriving DecidableEq, Repr

def KinkId.toJson (k : KinkId) : Json := .str (toString k.id)

/-! ### Outbound commands (`src/protocol.rs`, `ClientCommand`) -/

inductive ClientCommand where
  | GlobalBan (character : Character)
  | GlobalOp (character : Character)
  | GlobalCreateChannel (name : String)
  | GlobalDeop (character : Character)
  | Alts (character : Character)
  | Broadcast (message : String)
  | Banlist (channel : Channel)
  | Ban (channel : Channel) (character : Character)
  | Op (channel : Channel) (character : Character)
  | CreateChannel (name : String)
  | ChangeDescription (channel : Channel) (description : String)
  | GlobalChannels
  | ChannelInviteUser (channel : Channel) (character : Character)
  | Kick (channel : Channel) (character : Character)
  | Ops (channel : Channel)
  | Deop (channel : Channel) (character : Character)
  | SetOwner (channel : Channel) (character : Character)
  | Timeout (channel : Channel) (character : Character)
  | Pardon (channel : Channel) (character : Character)
  | Search (kinks : List KinkId) (genders : List Gender) (orientations : List Orientation)
      (languages : List Language) (furryprefs : List FurryPreference) (roles : List Role)
  | Identify (method : IdentifyMethod) (account : String) (ticket : String)
      (character : Character) (client_name : String) (client_version : String)
  | IgnoreList (action : IgnoreAction) (character : Character)
  | JoinChannel (channel : Channel)
  | DeleteChannel (channel : Channel)
  | GlobalKick (channel : Channel)
  | Kinks (character : Character)
  | LeaveChannel (channel : Channel)
  | Ad (channel : Channel) (message : String)
  | Message (channel : Channel) (message : String)
  | Channels
  | Pong
  | PrivateMessage (recipient : Character) (message : String)
  | ProfileTags (character : Character)
  | Roll (channel : Channel) (dice : String)
  | Reload (save : String)
  | ChannelMode (channel : Channel) (mode : ChannelMode)
  | ChannelStatus (channel : Channel) (status : ChannelStatus)
  | Reward (character : Character)
  | Report (action : ReportAction) (report : String) (character : Character)
  | Status (status : Status) (statusmsg : String)
  | GlobalTimeout (character : Character) (time : Nat) (reason : String)
  | Typing (character : Character) (status : TypingStatus)
  | GlobalPardon (character : Character)
  | Uptime
  deriving DecidableEq, Repr

/-- The `#[serde(rename = "CCC")]` wire tag of each `ClientCommand` variant. -/
def clientCommandTag : ClientCommand → String
  | .GlobalBan _ => "ACB"
  | .GlobalOp _ => "AOP"
  | .GlobalCreateChannel _ => "CRC"
  | .GlobalDeop _ => "DOP"
  | .Alts _ => "AWC"
  | .Broadcast _ => "BRO"
  | .Banlist _ => "CBL"
  | .Ban _ _ => "CBU"
  | .Op _ _ => "COA"
  | .CreateChannel _ => "CCR"
  | .ChangeDescription _ _ => "CDS"
  | .GlobalChannels => "CHA"
  | .ChannelInviteUser _ _ => "CIU"
  | .Kick _ _ => "CKU"
  | .Ops _ => "COL"
  | .Deop _ _ => "COR"
  | .SetOwner _ _ => "CSO"
  | .Timeout _ _ => "CTU"
  | .Pardon _ _ => "CUB"
  | .Search _ _ _ _ _ _ => "FKS"
  | .Identify _ _ _ _ _ _ => "IDN"
  | .IgnoreList _ _ => "IGN"
  | .JoinChannel _ => "JCH"
  | .DeleteChannel _ => "KIC"
  | .GlobalKick _ => "KIK"
  | .Kinks _ => "KIN"
  | .LeaveChannel _ => "LCH"
  | .Ad _ _ => "LRP"
  | .Message _ _ => "MSG"
  | .Channels => "ORS"
  | .Pong => "PIN"
  | .PrivateMessage _ _ => "PRI"
  | .ProfileTags _ => "PRO"
  | .Roll _ _ => "RLL"
  | .Reload _ => "RLD"
  | .ChannelMode _ _ => "RMO"
  | .ChannelStatus _ _ => "RST"
  | .Reward _ => "RWD"
  | .Report _ _ _ => "SFC"
  | .Status _ _ => "STA"
  | .GlobalTimeout _ _ _ => "TMO"
  | .Typing _ _ => "TPN"
  | .GlobalPardon _ => "UNB"
  | .Uptime => "UPT"

def strJ (s : String) : Json := .str s
def natJ (n : Nat) : Json := .num (n : Rat)
def listJ (f : α → Json) (xs : List α) : Json := .arr (xs.map f)

/-- The `data` member of the adjacently-tagged serialisation
`{"command": tag, "data": …}` of a `ClientCommand`
(`#[serde(tag = "command", content = "data")]`).  Unit variants serialise
with no `data` key at all (`none` here); `CommandDummy`'s
`#[serde(default)]` then fills in `Value::Null`.  Struct variants serialise
as an object; `Json.mkObj` reflects `serde_json`'s key-sorted map. -/
def clientCommandData : ClientCommand → Option Json
  | .GlobalBan character => some (.mkObj [("character", strJ character)])
  | .GlobalOp character => some (.mkObj [("character", strJ character)])
  | .GlobalCreateChannel name => some (.mkObj [("name", strJ name)])
  | .GlobalDeop character => some (.mkObj [("character", strJ character)])
  | .Alts character => some (.mkObj [("character", strJ character)])
  | .Broadcast message => some (.mkObj [("message", strJ message)])
  | .Banlist channel => some (.mkObj [("channel", strJ channel)])
  | .Ban channel character =>
    some (.mkObj [("channel", strJ channel), ("character", strJ character)])
  | .Op channel character =>
    some (.mkObj [("channel", strJ channel), ("character", strJ character)])
  | .CreateChannel name => some (.mkObj [("name", strJ name)])
  | .ChangeDescription channel description =>
    some (.mkObj [("channel", strJ channel), ("description", strJ description)])
  | .GlobalChannels => none
  | .ChannelInviteUser channel character =>
    some (.mkObj [("channel", strJ channel), ("character", strJ character)])
  | .Kick channel character =>
    some (.mkObj [("channel", strJ channel), ("character", strJ character)])
  | .Ops channel => some (.mkObj [("channel", strJ channel)])
  | .Deop channel character =>
    some (.mkObj [("channel", strJ channel), ("character", strJ character)])
  | .SetOwner channel character =>
    some (.mkObj [("channel", strJ channel), ("character", strJ character)])
  | .Timeout channel character =>
    some (.mkObj [("channel", strJ channel), ("character", strJ character)])
  | .Pardon channel character =>
    some (.mkObj [("channel", strJ channel), ("character", strJ character)])
  | .Search kinks genders orientations languages furryprefs roles =>
    some (.mkObj [("kinks", listJ KinkId.toJson kinks),
      ("genders", listJ (fun g => strJ g.wire) genders),
      ("orientations", listJ (fun o => strJ o.wire) orientations),
      ("languages", listJ (fun l => strJ l.wire) languages),
      ("furryprefs", listJ (fun f => strJ f.wire) furryprefs),
      ("roles", listJ (fun r => strJ r.wire) roles)])
  | .Identify method account ticket character client_name client_version =>
    some (.mkObj [("method", strJ method.wire), ("account", strJ account),
      ("ticket", strJ ticket), ("character", strJ character),
      ("cname", strJ client_name), ("cversion", strJ client_version)])
  | .IgnoreList action character =>
    some (.mkObj [("action", strJ action.wire), ("character", strJ character)])
  | .JoinChannel channel => some (.mkObj [("channel", strJ channel)])
  | .DeleteChannel channel => some (.mkObj [("channel", strJ channel)])
  | .GlobalKick channel => some (.mkObj [("channel", strJ channel)])
  | .Kinks character => some (.mkObj [("character", strJ character)])
  | .LeaveChannel channel => some (.mkObj [("channel", strJ channel)])
  | .Ad channel message =>
    some (.mkObj [("channel", strJ channel), ("message", strJ message)])
  | .Message channel message =>
    some (.mkObj [("channel", strJ channel), ("message", strJ message)])
  | .Channels => none
  | .Pong => none
  | .PrivateMessage recipient message =>
    some (.mkObj [("recipient", strJ recipient), ("message", strJ message)])
  | .ProfileTags character => some (.mkObj [("character", strJ character)])
  | .Roll channel dice =>
    some (.mkObj [("channel", strJ channel), ("dice", strJ dice)])
  | .Reload save => some (.mkObj [("save", strJ save)])
  | .ChannelMode channel mode =>
    some (.mkObj [("channel", strJ channel), ("mode", strJ mode.wire)])
  | .ChannelStatus channel status =>
    some (.mkObj [("channel", strJ channel), ("status", strJ status.wire)])
  | .Reward character => some (.mkObj [("character", strJ character)])
  | .Report action report character =>
    some (.mkObj [("action", strJ action.wire), ("report", strJ report),
      ("character", strJ character)])
  | .Status status statusmsg =>
    some (.mkObj [("status", strJ status.wire), ("statusmsg", strJ statusmsg)])
  | .GlobalTimeout character time reason =>
    some (.mkObj [("character", strJ character), ("time", natJ time),
      ("reason", strJ reason)])
  | .Typing character status =>
    some (.mkObj [("character", strJ character), ("status", strJ status.wire)])
  | .GlobalPardon character => some (.mkObj [("character", strJ character)])
  | .Uptime => none

/-- Encoder `prepare_command` (protocol.rs lines 43-51): serialise the command to its
adjacently-tagged `Value`, read it back as `CommandDummy \x7bcommand, data\x7d`
(with `data` defaulting to `Value::Null`), then write
`write!(buffer, "\x7b\x7d ", command)` — the tag and an unconditional space —
followed by `to_writer(buffer, &data)`. -/
def prepare_command (command : ClientCommand) : String :=
  clientCommandTag command ++ " " ++ Json.render ((clientCommandData command).getD Json.null)

/-! ### JSON text parsing (`serde_json::from_str`)

A fuel-indexed recursive-descent parser for the JSON bodies of incoming
frames.  `none` models a `serde_json` parse error.  Objects are normalised
through `Json.mkObj`, matching the `BTreeMap` behind `serde_json::Map`
(sorted keys, a duplicate key keeps the last value). -/

def isWsChar (c : Char) : Bool :=
  c = ' ' || c = Char.ofNat 9 || c = Char.ofNat 10 || c = Char.ofNat 13

def skipWs : List Char → List Char
  | c :: cs => if isWsChar c then skipWs cs else c :: cs
  | [] => []

def digitVal (c : Char) : Nat := c.toNat - 48

def parseDigitsAux (acc : Nat) (cnt : Nat) : List Char → Nat × Nat × List Char
  | c :: cs =>
    if c.isDigit then parseDigitsAux (acc * 10 + digitVal c) (cnt + 1) cs
    else (acc, cnt, c :: cs)
  | [] => (acc, cnt, [])

/-- The integer part of a JSON numeral: `0`, or a digit run not starting
with `0`. -/
def parseIntPart (cs : List Char) : Option (Nat × List Char) :=
  match cs with
  | '0' :: rest => some (0, rest)
  | c :: _ =>
    if c.isDigit then
      let r := parseDigitsAux 0 0 cs
      some (r.1, r.2.2)
    else none
  | [] => none

def parseFracPart (cs : List Char) : Option (Rat × List Char) :=
  match cs with
  | '.' :: rest =>
    let r := parseDigitsAux 0 0 rest
    if r.2.1 = 0 then none
    else some ((r.1 : Rat) / ((10 : Rat) ^ r.2.1), r.2.2)
  | _ => some (0, cs)

def parseExpPart (cs : List Char) : Option (Int × List Char) :=
  match cs with
  | 'e' :: rest | 'E' :: rest =>
    let (sign, rest2) : Int × List Char :=
      match rest with
      | '-' :: r => (-1, r)
      | '+' :: r => (1, r)
      | r => (1, r)
    let r := parseDigitsAux 0 0 rest2
    if r.2.1 = 0 then none else some (sign * (r.1 : Int), r.2.2)
  | _ => some (0, cs)

def applyExp (q : Rat) (e : Int) : Rat :=
  if 0 ≤ e then q * ((10 : Rat) ^ e.toNat) else q / ((10 : Rat) ^ (-e).toNat)

def parseNumber (cs : List Char) : Option (Rat × List Char) := do
  let (neg, cs1) : Bool × List Char :=
    match cs with
    | '-' :: r => (true, r)
    | r => (false, r)
  let (ip, cs2) ← parseIntPart cs1
  let (fp, cs3) ← parseFracPart cs2
  let (ex, cs4) ← parseExpPart cs3
  let base : Rat := (ip : Rat) + fp
  let v := applyExp (if neg then -base else base) ex
  some (v, cs4)

def hexVal (c : Char) : Option Nat :=
  if c.isDigit then some (digitVal c)
  else if 'a' ≤ c && c ≤ 'f' then some (c.toNat - 87)
  else if 'A' ≤ c && c ≤ 'F' then some (c.toNat - 55)
  else none

def parseHex4 (cs : List Char) : Option (Nat × List Char) :=
  match cs with
  | a :: b :: c :: d :: rest => do
    let va ← hexVal a
    let vb ← hexVal b
    let vc ← hexVal c
    let vd ← hexVal d
    some (((va * 16 + vb) * 16 + vc) * 16 + vd, rest)
  | _ => none

/-- Body of a JSON string after the opening quote (fuel-indexed; surrogate
pairs are not recombined, which no wire value of this protocol needs). -/
def parseStringBody : Nat → List Char → Option (List Char × List Char)
  | 0, _ => none
  | _ + 1, [] => none
  | fuel + 1, c :: cs =>
    if c = '"' then some ([], cs)
    else if c = '\\' then
      match cs with
      | e :: cs2 =>
        let unescaped : Option (Char × List Char) :=
          if e = '"' then some ('"', cs2)
          else if e = '\\' then some ('\\', cs2)
          else if e = '/' then some ('/', cs2)
          else if e = 'b' then some (Char.ofNat 8, cs2)
          else if e = 'f' then some (Char.ofNat 12, cs2)
          else if e = 'n' then some (Char.ofNat 10, cs2)
          else if e = 'r' then some (Char.ofNat 13, cs2)
          else if e = 't' then some (Char.ofNat 9, cs2)
          else none
        match unescaped with
        | some (u, cs3) => (parseStringBody fuel cs3).map (fun r => (u :: r.1, r.2))
        | none =>
          if e = 'u' then do
            let (n, cs3) ← parseHex4 cs2
            let ch := if h : n.isValidChar then Char.ofNatAux n h else Char.ofNat 0xfffd
            (parseStringBody fuel cs3).map (fun r => (ch :: r.1, r.2))
          else none
      | [] => none
    else if c.toNat < 32 then none
    else (parseStringBody fuel cs).map (fun r => (c :: r.1, r.2))

mutual

def parseJsonValue : Nat → List Char → Option (Json × List Char)
  | 0, _ => none
  | fuel + 1, cs =>
    match skipWs cs with
    | 'n' :: 'u' :: 'l' :: 'l' :: rest => some (.null, rest)
    | 't' :: 'r' :: 'u' :: 'e' :: rest => some (.bool true, rest)
    | 'f' :: 'a' :: 'l' :: 's' :: 'e' :: rest => some (.bool false, rest)
    | '"' :: rest => (parseStringBody fuel rest).map (fun r => (.str (String.mk r.1), r.2))
    | '[' :: rest => parseArrayItems fuel (skipWs rest)
    | '{' :: rest => parseObjectFields fuel (skipWs rest)
    | other => (parseNumber other).map (fun r => (.num r.1, r.2))

def parseArrayItems : Nat → List Char → Option (Json × List Char)
  | 0, _ => none
  | fuel + 1, cs =>
    match cs with
    | ']' :: rest => some (.arr [], rest)
    | _ => do
      let (v, rest) ← parseJsonValue fuel cs
      let (vs, rest2) ← parseArrayTail fuel (skipWs rest)
      some (.arr (v :: vs), rest2)

def parseArrayTail : Nat → List Char → Option (List Json × List Char)
  | 0, _ => none
  | fuel + 1, cs =>
    match cs with
    | ']' :: rest => some ([], rest)
    | ',' :: rest => do
      let (v, rest2) ← parseJsonValue fuel rest
      let (vs, rest3) ← parseArrayTail fuel (skipWs rest2)
      some (v :: vs, rest3)
    | _ => none

def parseObjectFields : Nat → List Char → Option (Json × List Char)
  | 0, _ => none
  | fuel + 1, cs =>
    match cs with
    | '}' :: rest => some (.mkObj [], rest)
    | _ => do
      let (kv, rest) ← parseObjectEntry fuel cs
      let (kvs, rest2) ← parseObjectTail fuel (skipWs rest)
      some (.mkObj (kv :: kvs), rest2)

def parseObjectTail : Nat → List Char → Option (List (String × Json) × List Char)
  | 0, _ => none
  | fuel + 1, cs =>
    match cs with
    | '}' :: rest => some ([], rest)
    | ',' :: rest => do
      let (kv, rest2) ← parseObjectEntry fuel (skipWs rest)
      let (kvs, rest3) ← parseObjectTail fuel (skipWs rest2)
      some (kv :: kvs, rest3)
    | _ => none

def parseObjectEntry : Nat → List Char → Option ((String × Json) × List Char)
  | 0, _ => none
  | fuel + 1, cs =>
    match skipWs cs with
    | '"' :: rest => do
      let (k, rest2) ← parseStringBody fuel rest
      match skipWs rest2 with
      | ':' :: rest3 => do
        let (v, rest4) ← parseJsonValue fuel rest3
        some ((String.mk k, v), rest4)
      | _ => none
    | _ => none

end

def Json.parse (s : String) : Option Json :=
  match parseJsonValue (4 * s.length + 8) s.data with
  | some (v, rest) => if (skipWs rest).isEmpty then some v else none
  | none => none

/-! ### Inbound commands (`src/protocol.rs`, `ServerCommand`) -/

structure CharacterIdentity where
  identity : Character
  deriving DecidableEq, Repr

/-- Rust `FlatCharacterData(pub Character, pub Gender, pub Status, pub String)`:
a serde tuple struct, deserialised from a 4-element JSON array.  The last
part is the status message. -/
structure FlatCharacterData where
  character : Character
  gender : Gender
  status : Status
  statusMessage : String
  deriving DecidableEq, Repr

structure ChannelInfo where
  name : Channel
  characters : Nat
  title : String
  deriving DecidableEq, Repr

/-- The `VAR` payload (`protocol.rs` `Variable`): adjacently tagged over
`variable`/`value`, snake_case names with `lfrp_max`/`cds_max`/`lfrp_flood`/
`msg_flood`/`sta_flood` renames.  `f32` values are modelled as `Rat`. -/
inductive Variable where
  | ChatMax (v : Nat)
  | PrivMax (v : Nat)
  | AdMax (v : Nat)
  | CDSMax (v : Nat)
  | AdCooldown (v : Rat)
  | ChatCooldown (v : Rat)
  | StatusCooldown (v : Rat)
  | Permissions (v : String)
  | IconBlacklist (v : List Channel)
  deriving DecidableEq, Repr

inductive ServerCommand where
  | GlobalOps (ops : List Character)
  | GlobalOpped (character : Character)
  | Broadcast (message : String) (character : Character)
  | ChannelDescription (channel : Channel) (description : String)
  | GlobalChannels (channels : List Channel)
  | Invited (sender : Character) (title : String) (name : Channel)
  | Banned (operator : Character) (channel : Channel) (character : Character)
  | Kicked (operator : Character) (channel : Channel) (character : Character)
  | Opped (character : Character) (channel : Channel)
  | Ops (channel : Channel) (oplist : List Character)
  | Connected (count : Nat)
  | Deopped (character : Character) (channel : Channel)
  | SetOwner (character : Character) (channel : Channel)
  | Timeout (channel : Channel) (character : Character) (length : Nat) (operator : Character)
  | GlobalDeopped (character : Character)
  | Error (number : Int) (message : String)
  | Search (characters : List Character) (kinks : List KinkId)
  | Offline (character : Character)
  | Hello (message : String)
  | ChannelData (users : List CharacterIdentity) (channel : Channel) (mode : ChannelMode)
  | IdentifySuccess (character : Character)
  | JoinedChannel (channel : Channel) (character : CharacterIdentity) (title : String)
  | Kinks (response_type : KinkResponsePart) (message : String) (key : List Nat) (value : List Nat)
  | LeftChannel (channel : Channel) (character : Character)
  | ListOnline (characters : List FlatCharacterData)
  | NewConnection (status : Status) (gender : Gender) (identity : Character)
  | Ignore (action : IgnoreAction) (characters : List Character) (character : Character)
  | Friends (characters : List Character)
  | Channels (channels : List ChannelInfo)
  | Ping
  | ProfileData (response_type : ProfileDataPart) (message : String) (key : String) (value : String)
  | PrivateMessage (character : Character) (message : String)
  | Message (character : Character) (message : String) (channel : Channel)
  | Ad (character : Character) (message : String) (channel : Channel)
  | Roll (channel : Channel) (results : Nat) (response_type : String) (rolls : List String)
      (character : Character) (endresult : Nat) (message : String)
  | ChannelMode (mode : ChannelMode) (channel : Channel)
  | BridgeEvent (response_type : String) (character : Character)
  | Report (action : String) (moderator : Character) (character : Character)
      (timestamp : String) (callid : Nat) (report : String) (logid : Nat)
  | Status (status : Status) (character : Character) (statusmsg : String)
  | SystemMessage (message : String) (channel : Channel)
  | Typing (character : Character) (status : TypingStatus)
  | Uptime (time : Nat) (starttime : Nat) (startstring : String) (accepted : Nat)
      (channels : Nat) (users : Nat) (maxusers : Nat)
  | Variable (var : Variable)
  deriving DecidableEq, Repr

/-! Field decoders modelling the serde-derived `Deserialize` impls.  A
`none` is a serde error, which `parse_command` turns into a panic
(modelled as `none` overall). -/

def Json.lookupField : Json → String → Option Json
  | .obj fs, k => (fs.find? (fun kv => kv.1 == k)).map Prod.snd
  | _, _ => none

def Json.asStr : Json → Option String
  | .str s => some s
  | _ => none

/-- A `u32` from a JSON number: integral and in range (`serde_json` refuses
floats and out-of-range values for integer targets; the integral check is
approximated on the `Rat` model by `den = 1`). -/
def Json.asU32 : Json → Option Nat
  | .num q => if q.den = 1 ∧ 0 ≤ q.num ∧ q.num < 4294967296 then some q.num.toNat else none
  | _ => none

def Json.asU64 : Json → Option Nat
  | .num q =>
    if q.den = 1 ∧ 0 ≤ q.num ∧ q.num < 18446744073709551616 then some q.num.toNat else none
  | _ => none

def Json.asI32 : Json → Option Int
  | .num q => if q.den = 1 ∧ -2147483648 ≤ q.num ∧ q.num < 2147483648 then some q.num else none
  | _ => none

def Json.asF32 : Json → Option Rat
  | .num q => some q
  | _ => none

def decodeVec (d : Json → Option α) : Json → Option (List α)
  | .arr es => es.mapM d
  | _ => none

def decodeEnumWire (all : List α) (wire : α → String) : Json → Option α
  | .str s => all.find? (fun x => wire x == s)
  | _ => none

def decodeCharacterIdentity (j : Json) : Option CharacterIdentity := do
  let i ← (← j.lookupField "identity").asStr
  some ⟨i⟩

/-- Rust `u32::from_str` as used by `KinkId::try_from`: an optional leading `+`,
then decimal digits, in `u32` range. -/
def parseU32String (s : String) : Option Nat :=
  let ds := match s.data with
    | '+' :: rest => rest
    | rest => rest
  if ds.isEmpty ∨ ¬ ds.all Char.isDigit then none
  else
    let v := ds.foldl (fun acc c => acc * 10 + digitVal c) 0
    if v < 4294967296 then some v else none

/-- Decoding a `KinkId` through the untagged `KinkIdExpanded`:
a decimal string or a `u32` number. -/
def decodeKinkId : Json → Option KinkId
  | .str s => (parseU32String s).map KinkId.mk
  | .num q => (Json.asU32 (.num q)).map KinkId.mk
  | _ => none

def decodeFlatCharacterData : Json → Option FlatCharacterData
  | .arr [c, g, s, m] => do
    let c ← c.asStr
    let g ← decodeEnumWire Gender.all Gender.wire g
    let s ← decodeEnumWire Status.all Status.wire s
    let m ← m.asStr
    some ⟨c, g, s, m⟩
  | _ => none

def decodeChannelInfo (j : Json) : Option ChannelInfo := do
  let name ← (← j.lookupField "name").asStr
  let characters ← (← j.lookupField "characters").asU32
  let title ← (← j.lookupField "title").asStr
  some ⟨name, characters, title⟩

def decodeVariable (j : Json) : Option Variable := do
  let tag ← (← j.lookupField "variable").asStr
  let val ← j.lookupField "value"
  if tag = "chat_max" then val.asU32.map .ChatMax
  else if tag = "priv_max" then val.asU32.map .PrivMax
  else if tag = "lfrp_max" then val.asU32.map .AdMax
  else if tag = "cds_max" then val.asU32.map .CDSMax
  else if tag = "lfrp_flood" then val.asF32.map .AdCooldown
  else if tag = "msg_flood" then val.asF32.map .ChatCooldown
  else if tag = "sta_flood" then val.asF32.map .StatusCooldown
  else if tag = "permissions" then val.asStr.map .Permissions
  else if tag = "icon_blacklist" then (decodeVec Json.asStr val).map .IconBlacklist
  else none

/-- A `#[serde(default)]` string field: absent means `""`, present must be a
string. -/
def fieldStrD (j : Json) (k : String) : Option String :=
  match j.lookupField k with
  | none => some ""
  | some v => v.asStr

/-- A `#[serde(default)]` `Vec` field: absent means `[]`. -/
def fieldVecD (d : Json → Option α) (j : Json) (k : String) : Option (List α) :=
  match j.lookupField k with
  | none => some []
  | some v => decodeVec d v

def fieldStr (j : Json) (k : String) : Option String := do (← j.lookupField k).asStr

def fieldU32 (j : Json) (k : String) : Option Nat := do (← j.lookupField k).asU32

def fieldVec (d : Json → Option α) (j : Json) (k : String) : Option (List α) := do
  decodeVec d (← j.lookupField k)

def decodeADL (j : Json) : Option ServerCommand := do
  some (.GlobalOps (← fieldVec Json.asStr j "ops"))

def decodeAOP (j : Json) : Option ServerCommand := do
  some (.GlobalOpped (← fieldStr j "character"))

def decodeBRO (j : Json) : Option ServerCommand := do
  some (.Broadcast (← fieldStr j "message") (← fieldStr j "character"))

def decodeCDS (j : Json) : Option ServerCommand := do
  some (.ChannelDescription (← fieldStr j "channel") (← fieldStr j "description"))

def decodeCHA (j : Json) : Option ServerCommand := do
  some (.GlobalChannels (← fieldVec Json.asStr j "channels"))

def decodeCIU (j : Json) : Option ServerCommand := do
  some (.Invited (← fieldStr j "sender") (← fieldStr j "title") (← fieldStr j "name"))

def decodeCBU (j : Json) : Option ServerCommand := do
  some (.Banned (← fieldStr j "operator") (← fieldStr j "channel") (← fieldStr j "character"))

def decodeCKU (j : Json) : Option ServerCommand := do
  some (.Kicked (← fieldStr j "operator") (← fieldStr j "channel") (← fieldStr j "character"))

def decodeCOA (j : Json) : Option ServerCommand := do
  some (.Opped (← fieldStr j "character") (← fieldStr j "channel"))

def decodeCOL (j : Json) : Option ServerCommand := do
  some (.Ops (← fieldStr j "channel") (← fieldVec Json.asStr j "oplist"))

def decodeCON (j : Json) : Option ServerCommand := do
  some (.Connected (← fieldU32 j "count"))

def decodeCOR (j : Json) : Option ServerCommand := do
  some (.Deopped (← fieldStr j "character") (← fieldStr j "channel"))

def decodeCSO (j : Json) : Option ServerCommand := do
  some (.SetOwner (← fieldStr j "character") (← fieldStr j "channel"))

def decodeCTU (j : Json) : Option ServerCommand := do
  some (.Timeout (← fieldStr j "channel") (← fieldStr j "character")
    (← fieldU32 j "length") (← fieldStr j "operator"))

def decodeDOP (j : Json) : Option ServerCommand := do
  some (.GlobalDeopped (← fieldStr j "character"))

def decodeERR (j : Json) : Option ServerCommand := do
  some (.Error (← (← j.lookupField "number").asI32) (← fieldStr j "message"))

def decodeFKS (j : Json) : Option ServerCommand := do
  some (.Search (← fieldVec Json.asStr j "characters") (← fieldVec decodeKinkId j "kinks"))

def decodeFLN (j : Json) : Option ServerCommand := do
  some (.Offline (← fieldStr j "character"))

def decodeHLO (j : Json) : Option ServerCommand := do
  some (.Hello (← fieldStr j "message"))

def decodeICH (j : Json) : Option ServerCommand := do
  some (.ChannelData (← fieldVec decodeCharacterIdentity j "users") (← fieldStr j "channel")
    (← decodeEnumWire ChannelMode.all ChannelMode.wire (← j.lookupField "mode")))

def decodeIDN (j : Json) : Option ServerCommand := do
  some (.IdentifySuccess (← fieldStr j "character"))

def decodeJCH (j : Json) : Option ServerCommand := do
  some (.JoinedChannel (← fieldStr j "channel")
    (← decodeCharacterIdentity (← j.lookupField "character")) (← fieldStr j "title"))

def decodeKID (j : Json) : Option ServerCommand := do
  some (.Kinks (← decodeEnumWire KinkResponsePart.all KinkResponsePart.wire (← j.lookupField "type"))
    (← fieldStr j "message") (← fieldVec Json.asU32 j "key") (← fieldVec Json.asU32 j "value"))

def decodeLCH (j : Json) : Option ServerCommand := do
  some (.LeftChannel (← fieldStr j "channel") (← fieldStr j "character"))

def decodeLIS (j : Json) : Option ServerCommand := do
  some (.ListOnline (← fieldVec decodeFlatCharacterData j "characters"))

def decodeNLN (j : Json) : Option ServerCommand := do
  some (.NewConnection (← decodeEnumWire Status.all Status.wire (← j.lookupField "status"))
    (← decodeEnumWire Gender.all Gender.wire (← j.lookupField "gender"))
    (← fieldStr j "identity"))

def decodeIGN (j : Json) : Option ServerCommand := do
  some (.Ignore (← decodeEnumWire ignoreActionAll IgnoreAction.wire (← j.lookupField "action"))
    (← fieldVecD Json.asStr j "characters") (← fieldStrD j "character"))

def decodeFRL (j : Json) : Option ServerCommand := do
  some (.Friends (← fieldVec Json.asStr j "characters"))

def decodeORS (j : Json) : Option ServerCommand := do
  some (.Channels (← fieldVec decodeChannelInfo j "channels"))

def decodePIN (j : Json) : Option ServerCommand :=
  if j.isNullB then some .Ping else none

def decodePRD (j : Json) : Option ServerCommand := do
  some (.ProfileData
    (← decodeEnumWire ProfileDataPart.all ProfileDataPart.wire (← j.lookupField "type"))
    (← fieldStrD j "message") (← fieldStrD j "key") (← fieldStrD j "value"))

def decodePRI (j : Json) : Option ServerCommand := do
  some (.PrivateMessage (← fieldStr j "character") (← fieldStr j "message"))

def decodeMSG (j : Json) : Option ServerCommand := do
  some (.Message (← fieldStr j "character") (← fieldStr j "message") (← fieldStr j "channel"))

def decodeLRP (j : Json) : Option ServerCommand := do
  some (.Ad (← fieldStr j "character") (← fieldStr j "message") (← fieldStr j "channel"))

def decodeRLL (j : Json) : Option ServerCommand := do
  some (.Roll (← fieldStr j "channel") (← fieldU32 j "results") (← fieldStr j "type")
    (← fieldVec Json.asStr j "rolls") (← fieldStr j "character") (← fieldU32 j "endresult")
    (← fieldStr j "message"))

def decodeRMO (j : Json) : Option ServerCommand := do
  some (.ChannelMode (← decodeEnumWire ChannelMode.all ChannelMode.wire (← j.lookupField "mode"))
    (← fieldStr j "channel"))

def decodeRTB (j : Json) : Option ServerCommand := do
  some (.BridgeEvent (← fieldStr j "type") (← fieldStr j "character"))

def decodeSFC (j : Json) : Option ServerCommand := do
  some (.Report (← fieldStr j "action") (← fieldStr j "moderator") (← fieldStr j "character")
    (← fieldStr j "timestamp") (← fieldU32 j "callid") (← fieldStr j "report")
    (← fieldU32 j "logid"))

def decodeSTA (j : Json) : Option ServerCommand := do
  some (.Status (← decodeEnumWire Status.all Status.wire (← j.lookupField "status"))
    (← fieldStr j "character") (← fieldStr j "statusmsg"))

def decodeSYS (j : Json) : Option ServerCommand := do
  some (.SystemMessage (← fieldStr j "message") (← fieldStr j "channel"))

def decodeTPN (j : Json) : Option ServerCommand := do
  some (.Typing (← fieldStr j "character")
    (← decodeEnumWire TypingStatus.all TypingStatus.wire (← j.lookupField "status")))

def decodeUPT (j : Json) : Option ServerCommand := do
  some (.Uptime (← (← j.lookupField "time").asU64) (← (← j.lookupField "starttime").asU64)
    (← fieldStr j "startstring") (← (← j.lookupField "accepted").asU64)
    (← fieldU32 j "channels") (← fieldU32 j "users") (← fieldU32 j "maxusers"))

def decodeVAR (j : Json) : Option ServerCommand := do
  some (.Variable (← decodeVariable j))

/-- The tag dispatch of the serde-derived adjacently-tagged `Deserialize`
for `ServerCommand`: each `#[serde(rename = "CCC")]` wire tag paired with
the decoder for its variant's fields.  An unknown tag is a serde error. -/
def serverDecoders : List (String × (Json → Option ServerCommand)) :=
  [("ADL", decodeADL), ("AOP", decodeAOP), ("BRO", decodeBRO), ("CDS", decodeCDS),
   ("CHA", decodeCHA), ("CIU", decodeCIU), ("CBU", decodeCBU), ("CKU", decodeCKU),
   ("COA", decodeCOA), ("COL", decodeCOL), ("CON", decodeCON), ("COR", decodeCOR),
   ("CSO", decodeCSO), ("CTU", decodeCTU), ("DOP", decodeDOP), ("ERR", decodeERR),
   ("FKS", decodeFKS), ("FLN", decodeFLN), ("HLO", decodeHLO), ("ICH", decodeICH),
   ("IDN", decodeIDN), ("JCH", decodeJCH), ("KID", decodeKID), ("LCH", decodeLCH),
   ("LIS", decodeLIS), ("NLN", decodeNLN), ("IGN", decodeIGN), ("FRL", decodeFRL),
   ("ORS", decodeORS), ("PIN", decodePIN), ("PRD", decodePRD), ("PRI", decodePRI),
   ("MSG", decodeMSG), ("LRP", decodeLRP), ("RLL", decodeRLL), ("RMO", decodeRMO),
   ("RTB", decodeRTB), ("SFC", decodeSFC), ("STA", decodeSTA), ("SYS", decodeSYS),
   ("TPN", decodeTPN), ("UPT", decodeUPT), ("VAR", decodeVAR)]

def serverCommandTags : List String := serverDecoders.map Prod.fst

def lookupDecoder (tag : String) :
    List (String × (Json → Option ServerCommand)) → Option (Json → Option ServerCommand)
  | [] => none
  | (t, d) :: rest => if t = tag then some d else lookupDecoder tag rest

/-- Model of `from_value::<ServerCommand>(to_value(CommandDummy))`: dispatch on the
`command` tag, then decode the `data` member. -/
def from_value_server (tag : String) (data : Json) : Option ServerCommand :=
  match lookupDecoder tag serverDecoders with
  | some d => d data
  | none => none

/-- Decoder `parse_command` (protocol.rs lines 20-41).  A frame shorter than 4 bytes
has no body (`data = Value::Null`); otherwise `split_at(4)` separates the
head (trimmed) from the JSON body.  All three `.expect(...)` panic points —
the body failing to parse, and `from_value` failing (unknown tag or bad
fields) — are modelled as `none`: the function aborts instead of returning
an error value. -/
def parse_command (command : String) : Option ServerCommand :=
  if command.length < 4 then
    from_value_server command Json.null
  else
    match Json.parse (command.drop 4) with
    | some v => from_value_server ((command.take 4).trim) v
    | none => none

/-! ### Protocol error classification (`src/protocol.rs`, `ProtocolError`) -/

inductive ProtocolError where
  | Success | SytaxError | FullServer | Unauthenticated | AuthenticationFailed
  | MessageCooldown | NoSuchCharacter | ProfileCooldown | UnknownCommand | Banned
  | AdminRequired | AlreadyIdentified | KinkCooldown | MessageTooLong
  | AlreadyModerator | NotAModerator | NoResults | ModeratorRequired | Ignored
  | InvalidTarget | NoSuchChannel | AlreadyInChannel | TooManySessions
  | AnotherConnection | AlreadyBanned | InvalidAuthentication | RollError
  | InvalidTimeoutDuration | TimeOut | Kick | AlreadyChannelBanned
  | NotChannelBanned | ChannelInviteRequired | ChannelJoinRequired
  | ChannelInviteForbidden | ChannelBanned | CharacterNotInChannel
  | SearchCooldown | ReportCooldown | AdCooldown | MessageOnly | AdsOnly
  | TooManySearchTerms | NoFreeSlots | IgnoreListTooLong | ChannelTitleTooLong
  | TooManySearchResults
  | InternalError | CommandError | Unimplemented | LoginTimeOut | UnknownError
  | FrontpageDice
  | Other
  deriving DecidableEq, Repr

/-- The `#[repr(i32)]` discriminant of each `ProtocolError`. -/
def ProtocolError.toCode : ProtocolError → Int
  | .Success => 0
  | .SytaxError => 1
  | .FullServer => 2
  | .Unauthenticated => 3
  | .AuthenticationFailed => 4
  | .MessageCooldown => 5
  | .NoSuchCharacter => 6
  | .ProfileCooldown => 7
  | .UnknownCommand => 8
  | .Banned => 9
  | .AdminRequired => 10
  | .AlreadyIdentified => 11
  | .KinkCooldown => 13
  | .MessageTooLong => 15
  | .AlreadyModerator => 16
  | .NotAModerator => 17
  | .NoResults => 18
  | .ModeratorRequired => 19
  | .Ignored => 20
  | .InvalidTarget => 21
  | .NoSuchChannel => 26
  | .AlreadyInChannel => 28
  | .TooManySessions => 30
  | .AnotherConnection => 31
  | .AlreadyBanned => 32
  | .InvalidAuthentication => 33
  | .RollError => 36
  | .InvalidTimeoutDuration => 38
  | .TimeOut => 39
  | .Kick => 40
  | .AlreadyChannelBanned => 41
  | .NotChannelBanned => 42
  | .ChannelInviteRequired => 44
  | .ChannelJoinRequired => 45
  | .ChannelInviteForbidden => 47
  | .ChannelBanned => 48
  | .CharacterNotInChannel => 49
  | .SearchCooldown => 50
  | .ReportCooldown => 54
  | .AdCooldown => 56
  | .MessageOnly => 59
  | .AdsOnly => 60
  | .TooManySearchTerms => 61
  | .NoFreeSlots => 62
  | .IgnoreListTooLong => 64
  | .ChannelTitleTooLong => 67
  | .TooManySearchResults => 72
  | .InternalError => -1
  | .CommandError => -2
  | .Unimplemented => -3
  | .LoginTimeOut => -4
  | .UnknownError => -5
  | .FrontpageDice => -10
  | .Other => 9999

/-- Conversion `ProtocolError::from(i32)`, generated by `num_enum::FromPrimitive`:
every known discriminant maps to its variant, anything else to the
`#[num_enum(default)]` variant `Other`. -/
def ProtocolError.fromCode : Int → ProtocolError
  | 0 => .Success
  | 1 => .SytaxError
  | 2 => .FullServer
  | 3 => .Unauthenticated
  | 4 => .AuthenticationFailed
  | 5 => .MessageCooldown
  | 6 => .NoSuchCharacter
  | 7 => .ProfileCooldown
  | 8 => .UnknownCommand
  | 9 => .Banned
  | 10 => .AdminRequired
  | 11 => .AlreadyIdentified
  | 13 => .KinkCooldown
  | 15 => .MessageTooLong
  | 16 => .AlreadyModerator
  | 17 => .NotAModerator
  | 18 => .NoResults
  | 19 => .ModeratorRequired
  | 20 => .Ignored
  | 21 => .InvalidTarget
  | 26 => .NoSuchChannel
  | 28 => .AlreadyInChannel
  | 30 => .TooManySessions
  | 31 => .AnotherConnection
  | 32 => .AlreadyBanned
  | 33 => .InvalidAuthentication
  | 36 => .RollError
  | 38 => .InvalidTimeoutDuration
  | 39 => .TimeOut
  | 40 => .Kick
  | 41 => .AlreadyChannelBanned
  | 42 => .NotChannelBanned
  | 44 => .ChannelInviteRequired
  | 45 => .ChannelJoinRequired
  | 47 => .ChannelInviteForbidden
  | 48 => .ChannelBanned
  | 49 => .CharacterNotInChannel
  | 50 => .SearchCooldown
  | 54 => .ReportCooldown
  | 56 => .AdCooldown
  | 59 => .MessageOnly
  | 60 => .AdsOnly
  | 61 => .TooManySearchTerms
  | 62 => .NoFreeSlots
  | 64 => .IgnoreListTooLong
  | 67 => .ChannelTitleTooLong
  | 72 => .TooManySearchResults
  | -1 => .InternalError
  | -2 => .CommandError
  | -3 => .Unimplemented
  | -4 => .LoginTimeOut
  | -5 => .UnknownError
  | -10 => .FrontpageDice
  | _ => .Other

/-- Predicate `ProtocolError::is_fatal` (protocol.rs lines 589-600). -/
def ProtocolError.is_fatal : ProtocolError → Bool
  | .FullServer | .Banned | .TooManySessions | .AnotherConnection
  | .InvalidAuthentication | .TimeOut | .Kick | .InternalError => true
  | _ => false

/-- Predicate `ProtocolError::has_message` (protocol.rs lines 605-607). -/
def ProtocolError.has_message : ProtocolError → Bool
  | .Ignored | .TimeOut => true
  | _ => false

/-! ### Session state machine (`src/session.rs`) -/

inductive SessionError where
  | WebsocketError
  | MiscConnectionFailure
  | UnexpectedProtocolMessage (msg : String)
  | LateVarCommand
  | LateIdentifyCommand
  deriving DecidableEq, Repr

inductive SessionEvent where
  | Reconnect
  | Disconnected (e : ProtocolError)
  | Command (c : ServerCommand)
  | Error (e : SessionError)
  deriving DecidableEq, Repr

structure Variables where
  chat_max : Nat := 0
  priv_max : Nat := 0
  ad_max : Nat := 0
  chat_cooldown : Rat := 0
  ad_cooldown : Rat := 0
  status_cooldown : Rat := 0
  icon_blacklist : List Channel := []
  deriving DecidableEq, Repr

/-- The per-connection state of a `Session`.  The `DashSet<Channel>` is
modelled as a duplicate-free list and the `DashMap<Character, TypingStatus>`
as an association list; their membership content is faithful, their
iteration order is not part of the model (a `DashSet` iterates in hash
order).  `outbox` collects the commands pushed through `self.send`; `vars`
is the source's `variables` field, renamed because `variables` is a
reserved token in Lean 4. -/
structure SessionState where
  character : Character
  channels : List Channel
  private_messages : List (Character × TypingStatus)
  vars : Variables
  last_err : Int
  outbox : List ClientCommand
  deriving DecidableEq, Repr

def dashSetInsert (s : List Channel) (c : Channel) : List Channel :=
  if c ∈ s then s else s ++ [c]

def dashSetRemove (s : List Channel) (c : Channel) : List Channel :=
  s.filter (fun x => x ≠ c)

/-- Model of `DashMap::insert`: stores the value under the key and returns the
previously stored value, if any. -/
def dashMapInsert (m : List (Character × TypingStatus)) (k : Character) (v : TypingStatus) :
    Option TypingStatus × List (Character × TypingStatus) :=
  match m.find? (fun kv => kv.1 == k) with
  | some kv => (some kv.2, m.map (fun kv2 => if kv2.1 = k then (k, v) else kv2))
  | none => (none, m ++ [(k, v)])

/-- Handler `Session::handle_command` (session.rs lines 223-262).  The returned
`Bool` states whether the event loop forwards the command to the event
channel.  The snapshot compares the `JCH` payload's `CharacterIdentity`
directly with `session.character`; the comparison is modelled on the
carried identity string. -/
def handle_command (s : SessionState) (command : ServerCommand) :
    SessionState × Except SessionError Bool :=
  match command with
  | .Ping => ({ s with outbox := s.outbox ++ [ClientCommand.Pong] }, .ok false)
  | .Hello _ => (s, .ok false)
  | .Connected _ => (s, .ok true)
  | .Error number _ => ({ s with last_err := number }, .ok true)
  | .JoinedChannel channel character _ =>
    (if character.identity = s.character then
      { s with channels := dashSetInsert s.channels channel }
    else s, .ok true)
  | .LeftChannel channel character =>
    (if character = s.character then
      { s with channels := dashSetRemove s.channels channel }
    else s, .ok true)
  | .Typing character status =>
    let r := dashMapInsert s.private_messages character status
    match r.1 with
    | some old => ({ s with private_messages := r.2 }, .ok (old == status))
    | none => ({ s with private_messages := r.2 }, .ok true)
  | .IdentifySuccess _ => (s, .error .LateIdentifyCommand)
  | .Variable _ => (s, .error .LateVarCommand)
  | _ => (s, .ok true)

/-- One `Ok(Message::Text(...))` iteration of `start_event_loop`
(session.rs lines 207-215), after the frame has been parsed:
`Ok(true)` emits `SessionEvent::Command`, `Ok(false)` emits nothing and
`Err` emits `SessionEvent::Error`. -/
def step_command (s : SessionState) (command : ServerCommand) :
    SessionState × List SessionEvent :=
  match handle_command s command with
  | (s2, .ok true) => (s2, [.Command command])
  | (s2, .ok false) => (s2, [])
  | (s2, .error e) => (s2, [.Error e])

def run_commands (s : SessionState) : List ServerCommand → SessionState × List SessionEvent
  | [] => (s, [])
  | c :: cs =>
    let r := step_command s c
    let r2 := run_commands r.1 cs
    (r2.1, r.2 ++ r2.2)

/-- The `ResetWithoutClosingHandshake` branch of `start_event_loop`
(session.rs lines 190-201): load `last_err`, convert it through
`ProtocolError::from`, and emit `Disconnected` when fatal, `Reconnect`
otherwise. -/
def onUngracefulClose (last_err : Int) : SessionEvent :=
  let e := ProtocolError.fromCode last_err
  if e.is_fatal then .Disconnected e else .Reconnect

/-- The parse-then-handle path for one text frame of the event loop.
`parse_command` panicking (an unknown tag or an unparsable body) aborts the
spawned read task: modelled as `none`. -/
def step_text_frame (s : SessionState) (text : String) :
    Option (SessionState × List SessionEvent) :=
  (parse_command text).map (step_command s)

def ServerCommand.isError : ServerCommand → Bool
  | .Error _ _ => true
  | _ => false

/-- Negotiation loop `Session::read_variables` (session.rs lines 159-182) on the post-IDN
frame stream: fold `VAR` payloads into a `Variables` record (`cds_max` and
`permissions` are only logged, "Unhandled var") and stop at the first
non-`VAR`, returning it together with the not-yet-read remainder of the
stream.  An exhausted stream is `MiscConnectionFailure`. -/
def applyVar (vars : Variables) (var : Variable) : Variables :=
  match var with
  | .ChatMax v => { vars with chat_max := v }
  | .PrivMax v => { vars with priv_max := v }
  | .AdMax v => { vars with ad_max := v }
  | .AdCooldown v => { vars with ad_cooldown := v }
  | .ChatCooldown v => { vars with chat_cooldown := v }
  | .StatusCooldown v => { vars with status_cooldown := v }
  | .IconBlacklist v => { vars with icon_blacklist := v }
  | .CDSMax _ => vars
  | .Permissions _ => vars

def read_variables (vars : Variables) :
    List ServerCommand → Except SessionError (Variables × ServerCommand × List ServerCommand)
  | [] => .error .MiscConnectionFailure
  | c :: cs =>
    match c with
    | .Variable var => read_variables (applyVar vars var) cs
    | other => .ok (vars, other, cs)

/-- The session record as `Session::connect` builds it (session.rs lines
77-86): fresh channel set and PM map, the negotiated variables, and
`last_err` initialised to `ProtocolError::Other as i32`. -/
def init_session (character : Character) (negotiated : Variables) : SessionState :=
  { character := character
    channels := []
    private_messages := []
    vars := negotiated
    last_err := ProtocolError.toCode .Other
    outbox := [] }

/-- Model of `Session::connect` after a successful IDN (session.rs lines 72-90),
applied to the stream of post-IDN frames: run `read_variables`, build the
session, and hand the rest of the stream to the event loop.  The binding
`let (variables, next) = ...` never uses `next` again: the first non-VAR
frame is consumed by `read_variables` and dropped. -/
def connect_session (character : Character) (frames : List ServerCommand) :
    Except SessionError (SessionState × List SessionEvent) :=
  match read_variables {} frames with
  | .error e => .error e
  | .ok (negotiated, _next, rest) =>
    .ok (run_commands (init_session character negotiated) rest)

/-! ### `StackString` (`src/util.rs` lines 40-149)

`StackString<N>([u8; N], usize)`: a fixed byte buffer and a length.  The
buffer is modelled as a byte list padded with zeroes to length `N`; `new`
promises (by contract, util.rs line 46) that the encoded input fits. -/

/-- UTF-8 encoding of one char (`str::as_bytes` is the UTF-8 byte view). -/
def charUtf8 (c : Char) : List UInt8 :=
  let n := c.toNat
  if n < 128 then [UInt8.ofNat n]
  else if n < 2048 then
    [UInt8.ofNat (192 + n / 64), UInt8.ofNat (128 + n % 64)]
  else if n < 65536 then
    [UInt8.ofNat (224 + n / 4096), UInt8.ofNat (128 + (n / 64) % 64), UInt8.ofNat (128 + n % 64)]
  else
    [UInt8.ofNat (240 + n / 262144), UInt8.ofNat (128 + (n / 4096) % 64),
     UInt8.ofNat (128 + (n / 64) % 64), UInt8.ofNat (128 + n % 64)]

def strBytes (s : String) : List UInt8 := s.data.flatMap charUtf8

structure StackString (N : Nat) where
  data : List UInt8
  len : Nat
  deriving DecidableEq, Repr

/-- Constructor `StackString::new` (util.rs lines 43-49): zero the buffer, copy the
input's bytes over its prefix.  Contract: the input fits (`try_new` checks). -/
def StackString.new (N : Nat) (s : String) : StackString N :=
  let bs := strBytes s
  { data := bs ++ List.replicate (N - bs.length) 0, len := bs.length }

/-- Checked constructor `StackString::try_new` (util.rs lines 51-57). -/
def StackString.tryNew (N : Nat) (s : String) : Option (StackString N) :=
  if (strBytes s).length > N then none else some (StackString.new N s)

/-- Equality `<StackString as PartialEq>::eq` (util.rs lines 129-133):
`self.0[..self.1] == other.0[..other.1]`, a byte-for-byte comparison of
the occupied prefixes. -/
def StackString.eq (a b : StackString N) : Bool :=
  a.data.take a.len == b.data.take b.len

/-- The byte view `&self.0[..self.1]` behind `Deref`, `Display` and
`Hash` (util.rs lines 62-70, 96-101, 139-143): the stored bytes exactly as
copied in, case included. -/
def StackString.viewBytes (a : StackString N) : List UInt8 :=
  a.data.take a.len

/-! ### Dispatch of `JCH` (`src/client.rs` lines 320-330) -/

inductive CacheCall where
  | update_channel (channel : Channel) (title : String)
  | add_channel_member (channel : Channel) (member : Character)
  deriving DecidableEq, Repr

inductive ListenerCall where
  | updated_channel (channel : Channel)
  | updated_session_channels
  deriving DecidableEq, Repr

structure JchDispatchResult where
  cacheCalls : List CacheCall
  listenerCalls : List ListenerCall
  deriving DecidableEq, Repr

/-- The `ServerCommand::JoinedChannel` arm of `Client::dispatch`:

```text
if update_channel(channel, {title}).unwrap() || add_channel_member(channel, character).unwrap()
  { updated_channel(channel) }
if session.character == character { updated_session_channels(session) }
```

The cache is abstracted by the boolean results its two mutators return
(the shipped `NoCache` returns `true` for every mutation, cache.rs).
Rust's `||` short-circuits: `add_channel_member` is evaluated only when
`update_channel` returned `false`.  `cacheCalls` records the cache calls
made, in order; `listenerCalls` the listener notifications.  The snapshot
compares the `JCH` `CharacterIdentity` payload with `session.character`;
the identity string carries the comparison. -/
def dispatch_jch (updateChannelResult : Channel → String → Bool)
    (addChannelMemberResult : Channel → Character → Bool)
    (sessionCharacter : Character) (channel : Channel) (identity : Character)
    (title : String) : JchDispatchResult :=
  let r1 := updateChannelResult channel title
  let callsAndTrigger :=
    if r1 then ([CacheCall.update_channel channel title], true)
    else ([CacheCall.update_channel channel title,
           CacheCall.add_channel_member channel identity],
          addChannelMemberResult channel identity)
  { cacheCalls := callsAndTrigger.1
    listenerCalls :=
      (if callsAndTrigger.2 then [ListenerCall.updated_channel channel] else []) ++
      (if sessionCharacter = identity then [ListenerCall.updated_session_channels] else []) }

/-! ### The client's session list (`src/client.rs`)

Abstracted to the character each live `Arc<Session>` is bound to. -/

/-- Model of `Client::connect` (client.rs lines 183-198): after `Session::connect`
succeeds, `self.sessions.write().push(session)` — an unconditional append,
with no per-character lookup. -/
def client_connect (sessions : List Character) (character : Character) : List Character :=
  sessions ++ [character]

/-- Model of `Client::drop_session` (client.rs lines 222-224):
`retain(|v| v.character != *session)`. -/
def drop_session (sessions : List Character) (session : Character) : List Character :=
  sessions.filter (fun v => v ≠ session)

/-- Model of `Client::get_session` (client.rs lines 214-216): first match wins. -/
def get_session (sessions : List Character) (session : Character) : Option Character :=
  sessions.find? (fun this_session => this_session = session)

/-! ## Theorems for the claims -/

/-- C1: the `Typing` arm of `handle_command` always upserts
`private_messages[character] = status`, but the forwarding decision is the
opposite of the claimed one: `Ok(old == *status)` makes the event loop
FORWARD an event whose status is unchanged and SUPPRESS one whose status
changed.  Concretely, with `private_messages = [Alice ↦ Typing]`, a repeat
`Typing(Alice, Typing)` is forwarded (`ok true`), a changed
`Typing(Alice, Clear)` is suppressed (`ok false`) although the map is
updated, and a first-ever `Typing` is forwarded. -/
theorem C1_typing_suppression_inverted :
    (handle_command
        { init_session "Bob" {} with private_messages := [("Alice", TypingStatus.Typing)] }
        (.Typing "Alice" .Typing)).2 = .ok true
    ∧ (handle_command
        { init_session "Bob" {} with private_messages := [("Alice", TypingStatus.Typing)] }
        (.Typing "Alice" .Clear)).2 = .ok false
    ∧ (handle_command
        { init_session "Bob" {} with private_messages := [("Alice", TypingStatus.Typing)] }
        (.Typing "Alice" .Clear)).1.private_messages = [("Alice", TypingStatus.Clear)]
    ∧ (handle_command (init_session "Bob" {}) (.Typing "Alice" .Typing)).2 = .ok true :=
  ⟨rfl, rfl, rfl, rfl⟩

/-- C2: `Session::connect` binds `let (variables, next) = read_variables(...)`
and never uses `next`: the first non-VAR frame is consumed from the socket
and dropped, not delivered by the event loop.  With the post-IDN stream
`[VAR chat_max=4096, CON count=100]`, the VAR is accumulated into the
session's variables but the `Connected` command is discarded — the event
loop starts on the already-empty remainder and emits no events at all. -/
theorem C2_first_non_var_dropped :
    connect_session "Alice" [.Variable (.ChatMax 4096), .Connected 100] =
      .ok (init_session "Alice" { chat_max := 4096 }, ([] : List SessionEvent)) :=
  rfl

/-- C3 (counterexample): a bodyless command does not encode to the bare
three-letter tag.  `prepare_command` writes the tag, an unconditional
space, and the JSON rendering of the defaulted `Value::Null` body, so
`Pong` encodes as `"PIN null"`, not `"PIN"`. -/
theorem C3_counterexample :
    prepare_command ClientCommand.Pong ≠ "PIN"
    ∧ prepare_command ClientCommand.Pong = "PIN null" :=
  ⟨by decide, rfl⟩

/-- C3 (amended): every encoded frame is the tag, a single space, and a
body; for the four bodyless variants (`PIN`, `UPT`, `CHA`, `ORS`) the body
is the literal `null` (because `CommandDummy` defaults the absent `data`
member to `Value::Null` and `prepare_command` unconditionally writes
separator and body), and for every other variant the body is the JSON
object holding the variant's serde-declared field names. -/
theorem C3_amended_encoding (c : ClientCommand) :
    if c ∈ [ClientCommand.Pong, .Uptime, .GlobalChannels, .Channels] then
      prepare_command c = clientCommandTag c ++ " null"
    else
      ∃ fields, clientCommandData c = some (Json.mkObj fields) ∧
        prepare_command c = clientCommandTag c ++ " " ++ Json.render (Json.mkObj fields) := by
  cases c <;>
    first
      | (rw [if_pos (by simp)]; rfl)
      | (rw [if_neg (by simp)]; exact ⟨_, rfl, rfl⟩)

/-- The tag under which `parse_command` dispatches a frame: the whole frame
when it is shorter than 4 bytes, otherwise the trimmed 4-byte head. -/
def frameTag (command : String) : String :=
  if command.length < 4 then command else (command.take 4).trim

theorem lookupDecoder_eq_none (tag : String)
    (l : List (String × (Json → Option ServerCommand)))
    (h : tag ∉ l.map Prod.fst) : lookupDecoder tag l = none := by
  induction l with
  | nil => rfl
  | cons hd tl ih =>
    simp only [List.map_cons, List.mem_cons] at h
    push_neg at h
    simp only [lookupDecoder]
    rw [if_neg (fun he => h.1 he.symm)]
    exact ih h.2

/-- C4 (counterexample): a frame with an unknown tag is not turned into a
non-fatal `UnknownCommand` error value, and the event loop does not log and
skip it: `parse_command` hits its `expect` (modelled `none`, a panic that
aborts the spawned read task), so the steady-state step on the frame
`"XYZ"` yields no surviving session state — in particular not the
unchanged-state, no-event outcome the claim describes. -/
theorem C4_counterexample :
    parse_command "XYZ" = none
    ∧ step_text_frame (init_session "Alice" {}) "XYZ" ≠
        some (init_session "Alice" {}, ([] : List SessionEvent)) :=
  ⟨rfl, by decide⟩

/-- C4 (amended): for every frame whose dispatch tag is not a known server
command tag, `parse_command` panics (modelled `none`) instead of returning
an error value, and the event-loop step on that frame aborts the read task
rather than skipping the frame. -/
theorem C4_amended_unknown_tag_aborts (text : String) (s : SessionState)
    (h : frameTag text ∉ serverCommandTags) :
    parse_command text = none ∧ step_text_frame s text = none := by
  have hparse : parse_command text = none := by
    unfold parse_command
    by_cases hlen : text.length < 4
    · rw [if_pos hlen]
      unfold from_value_server
      rw [lookupDecoder_eq_none _ _ (by simpa [frameTag, hlen, serverCommandTags] using h)]
    · rw [if_neg hlen]
      cases hp : Json.parse (text.drop 4) with
      | none => rfl
      | some v =>
        show from_value_server ((text.take 4).trim) v = none
        unfold from_value_server
        rw [lookupDecoder_eq_none _ _ (by simpa [frameTag, hlen, serverCommandTags] using h)]

  exact ⟨hparse, by simp [step_text_frame, hparse]⟩

/-- C4 (witness): the amended theorem applied at the unknown-tag frame
`"XYZ"`. -/
theorem C4_amended_witness :
    frameTag "XYZ" ∉ serverCommandTags
    ∧ parse_command "XYZ" = none
    ∧ step_text_frame (init_session "Bob" {}) "XYZ" = none :=
  ⟨by decide, C4_amended_unknown_tag_aborts "XYZ" (init_session "Bob" {}) (by decide)⟩

/-- C5: on an ungraceful transport close (`ResetWithoutClosingHandshake`),
the session emits `Disconnected(last_err)` exactly when the stored error
code lies in the fatal set `2 (FullServer), 9 (Banned), 30
(TooManySessions), 31 (AnotherConnection), 33 (InvalidAuthentication),
39 (TimeOut), 40 (Kick)` or is the synthetic internal error `-1
(InternalError)`; for every other stored code it emits `Reconnect`. -/
theorem C5_fatal_close_classification (code : Int) :
    onUngracefulClose code =
      if code ∈ ([2, 9, 30, 31, 33, 39, 40, -1] : List Int) then
        SessionEvent.Disconnected (ProtocolError.fromCode code)
      else SessionEvent.Reconnect := by
  by_cases h : code ∈ ([2, 9, 30, 31, 33, 39, 40, -1] : List Int)
  · rw [if_pos h]
    fin_cases h <;> rfl
  · rw [if_neg h]
    unfold onUngracefulClose ProtocolError.fromCode
    split <;> first
      | rfl
      | exact absurd (by decide) h

/-- C6 (counterexample): equality on the cited `StackString` identity type
is an exact byte comparison of the occupied prefixes, not a case-folded
one: `"Foo"` and `"foo"` differ in their first byte, so the values compare
unequal (and a hash over these differing byte views cannot make containers
treat them as one key). -/
theorem C6_counterexample :
    (StackString.new 20 "Foo").eq (StackString.new 20 "foo") = false := by decide

/-- C6 (amended): on inputs that satisfy the documented `len <= N`
contract, `StackString` equality holds exactly when the UTF-8 byte
sequences agree byte for byte — so two spellings differing only in ASCII
letter case are distinct values and distinct container keys — while the
stored view (behind `Deref`, `Display` and `Hash`) preserves the original
bytes, casing included. -/
theorem C6_amended_eq_exact_bytes (N : Nat) (s t : String)
    (_hs : (strBytes s).length ≤ N) (_ht : (strBytes t).length ≤ N) :
    ((StackString.new N s).eq (StackString.new N t) = true ↔ strBytes s = strBytes t)
    ∧ (StackString.new N s).viewBytes = strBytes s := by
  have hview : ∀ u : String, (StackString.new N u).viewBytes = strBytes u := fun u => by
    simp [StackString.new, StackString.viewBytes, List.take_left]
  have heq : (StackString.new N s).eq (StackString.new N t) =
      (strBytes s == strBytes t) := by
    show ((StackString.new N s).viewBytes == (StackString.new N t).viewBytes) = _
    rw [hview, hview]
  exact ⟨by rw [heq]; exact beq_iff_eq, hview s⟩

/-- C6 (witness): the amended theorem applied at `N = 20`, `"Foo"`,
`"foo"`. -/
theorem C6_amended_witness :
    ((strBytes "Foo").length ≤ 20 ∧ (strBytes "foo").length ≤ 20)
    ∧ (((StackString.new 20 "Foo").eq (StackString.new 20 "foo") = true ↔
          strBytes "Foo" = strBytes "foo")
        ∧ (StackString.new 20 "Foo").viewBytes = strBytes "Foo") :=
  ⟨⟨by decide, by decide⟩, C6_amended_eq_exact_bytes 20 "Foo" "foo" (by decide) (by decide)⟩

/-- C7 (counterexample): the two cache calls of the `JCH` dispatch arm are
joined by Rust's short-circuiting `||`, so they are NOT both attempted:
with the shipped `NoCache` (every mutator returns `true`),
`update_channel` returns `true` and `add_channel_member` is never called. -/
theorem C7_counterexample :
    JchDispatchResult.cacheCalls
        (dispatch_jch (fun _ _ => true) (fun _ _ => true) "Bob" "Frontpage" "Alice" "The Frontpage")
      = [CacheCall.update_channel "Frontpage" "The Frontpage"]
    ∧ CacheCall.add_channel_member "Frontpage" "Alice" ∉
        JchDispatchResult.cacheCalls
          (dispatch_jch (fun _ _ => true) (fun _ _ => true) "Bob" "Frontpage" "Alice" "The Frontpage") :=
  ⟨rfl, by decide⟩

/-- C7 (amended): on a `JCH` command the dispatcher attempts
`update_channel(channel, \x7btitle\x7d)` and, only if that returned
`false`, also `add_channel_member(channel, identity)`; it invokes
`updated_channel(channel)` iff the short-circuit disjunction of the
attempted calls is true, and additionally invokes
`updated_session_channels(session)` iff the joining identity equals the
session's own character. -/
theorem C7_amended_jch_dispatch (u a : Bool) (sessionCharacter channel identity title : String) :
    dispatch_jch (fun _ _ => u) (fun _ _ => a) sessionCharacter channel identity title =
      { cacheCalls :=
          if u then [CacheCall.update_channel channel title]
          else [CacheCall.update_channel channel title,
                CacheCall.add_channel_member channel identity]
        listenerCalls :=
          (if u || a then [ListenerCall.updated_channel channel] else []) ++
          (if sessionCharacter = identity then [ListenerCall.updated_session_channels] else []) } := by
  cases u <;> cases a <;> simp [dispatch_jch]

/-- C9 (counterexample): `Client::connect` pushes the new session with no
per-character lookup, so two successful `connect` calls for the same
character leave two live sessions bound to that character in the session
list — the at-most-one invariant does not hold of that reachable state. -/
theorem C9_counterexample :
    (client_connect (client_connect [] "Alice") "Alice").count "Alice" = 2
    ∧ ¬ (client_connect (client_connect [] "Alice") "Alice").count "Alice" ≤ 1 :=
  ⟨rfl, by decide⟩

/-- C9 (amended): `connect` unconditionally appends, growing the number of
sessions bound to the connected character by one regardless of how many
already exist; only `drop_session` (used on disconnect/reconnect) removes
every session of a character.  Per-character uniqueness is therefore not an
invariant maintained by `connect`. -/
theorem C9_amended_connect_appends (sessions : List Character) (c : Character) :
    client_connect sessions c = sessions ++ [c]
    ∧ (client_connect sessions c).count c = sessions.count c + 1
    ∧ (drop_session sessions c).count c = 0 := by
  refine ⟨rfl, by simp [client_connect], ?_⟩
  simp only [drop_session, List.count_eq_zero]
  intro hmem
  simp at hmem

theorem handle_command_preserves_last_err (s : SessionState) (c : ServerCommand)
    (h : c.isError = false) : (handle_command s c).1.last_err = s.last_err := by
  cases c <;>
    first
      | rfl
      | (simp only [handle_command]; split <;> rfl)
      | (simp [ServerCommand.isError] at h)

theorem step_command_fst (s : SessionState) (c : ServerCommand) :
    (step_command s c).1 = (handle_command s c).1 := by
  simp only [step_command]
  split <;> simp_all

theorem run_commands_preserves_last_err (s : SessionState) (cmds : List ServerCommand)
    (h : ∀ c ∈ cmds, c.isError = false) :
    (run_commands s cmds).1.last_err = s.last_err := by
  induction cmds generalizing s with
  | nil => rfl
  | cons c cs ih =>
    have hc := h c (List.mem_cons_self c cs)
    have hcs : ∀ x ∈ cs, x.isError = false := fun x hx => h x (List.mem_cons_of_mem c hx)
    show (run_commands (step_command s c).1 cs).1.last_err = s.last_err
    rw [ih _ hcs, step_command_fst, handle_command_preserves_last_err s c hc]

/-- C10: a session that has received no `ERR` since its creation keeps the
`last_err` it was constructed with — `ProtocolError::Other as i32` (9999),
the `num_enum` catch-all — because only the `Error` arm of `handle_command`
stores into `last_err`; `Other` is classified non-fatal, so an ungraceful
transport close always emits `Reconnect` and never `Disconnected`. -/
theorem C10_fresh_session_close_reconnects (character : Character)
    (negotiated : Variables) (cmds : List ServerCommand)
    (h : ∀ c ∈ cmds, c.isError = false) :
    onUngracefulClose (run_commands (init_session character negotiated) cmds).1.last_err =
        SessionEvent.Reconnect
    ∧ ∀ e, onUngracefulClose
        (run_commands (init_session character negotiated) cmds).1.last_err ≠
        SessionEvent.Disconnected e := by
  have h1 : onUngracefulClose
      (run_commands (init_session character negotiated) cmds).1.last_err =
      SessionEvent.Reconnect := by
    rw [run_commands_preserves_last_err _ _ h]
    rfl
  exact ⟨h1, fun e heq => SessionEvent.noConfusion (h1 ▸ heq)⟩

/-- C10 (witness): the theorem applied to a fresh session that processes a
single `PIN` (no `ERR`) before the transport resets. -/
theorem C10_witness :
    (∀ c ∈ [ServerCommand.Ping], c.isError = false)
    ∧ onUngracefulClose
        (run_commands (init_session "Alice" {}) [ServerCommand.Ping]).1.last_err =
        SessionEvent.Reconnect :=
  ⟨by decide, (C10_fresh_session_close_reconnects "Alice" {} [.Ping] (by decide)).1⟩

end FChat

